import Mathlib

/-!
Verification of the strategy decision logic of
`src/VTrade.Framework/applications/mql5/Experts/archive/V-EA-LongerTrends.cpp`,
an MQL5 expert advisor.  The `OnTick` handler is embedded shallowly: prices,
indicator buffer contents and the selected-position snapshot enter through a
`TickEnv` record, and the handler returns the list of trade requests it sends
to the broker (`trade.Buy`, `trade.Sell`, `trade.PositionClose`,
`trade.PositionModify`) in program order, together with the updated static
`prevBarTime`, the number of "minimum holding period not met" reports, and
whether the tick aborted on an array-out-of-range error (the source never
checks `CopyBuffer` results).  Doubles are modelled as rationals, datetimes as
integers (seconds).
-/

set_option maxRecDepth 8192

namespace VEA

/-- A trade request the expert sends to the broker within one tick. -/
inductive Action where
  | buy (lot price sl tp : ℚ)
  | sell (lot price sl tp : ℚ)
  | close
  | modify (sl tp : ℚ)
  deriving DecidableEq

/-- The expert's input parameters (source lines 13-27).  Indicator periods are
not modelled: indicator outputs enter through the tick environment. -/
structure Params where
  lotSize : ℚ
  stopLoss : ℚ
  takeProfit : ℚ
  rsiUpper : ℚ
  rsiLower : ℚ
  rsiExit : ℚ
  atrMult : ℚ
  minHold : ℤ
  deriving DecidableEq

/-- Side of an open position (`POSITION_TYPE_BUY` / `POSITION_TYPE_SELL`). -/
inductive PosType where
  | long
  | short
  deriving DecidableEq

/-- The broker-side position state the handler reads through `PositionSelect`
and `PositionGetInteger`/`PositionGetDouble`. -/
structure Position where
  posType : PosType
  openTime : ℤ
  sl : ℚ
  tp : ℚ
  deriving DecidableEq

/-- One tick's environment: prices, the current hourly bar's open timestamp,
the wall clock, and the results of the indicator fetches the handler performs.
An `xOk := false` flag models a `CopyBuffer` call that fails or returns fewer
samples than the handler indexes; the accompanying value fields are then
meaningless (the handler aborts before using them).  `exitEmaHandle` is the
raw return of the `iMA` calls on source lines 176 and 209: in MQL5 `iMA`
returns an indicator handle (a small integer id), which the source assigns to
a `double` and compares against EMA samples.  `exitEmaValue` is the actual
latest value of that longer-period exit EMA; the source never fetches it, and
it is used only by the definition modelled from the spec. -/
structure TickEnv where
  bid : ℚ
  ask : ℚ
  point : ℚ
  barTime : ℤ
  now : ℤ
  trendOk : Bool
  trend0 : ℚ
  trend1 : ℚ
  trend2 : ℚ
  rsiOk : Bool
  rsi0 : ℚ
  rsi1 : ℚ
  rsi2 : ℚ
  macdOk : Bool
  atrOk : Bool
  atr : ℚ
  higherOk : Bool
  trendH0 : ℚ
  trendH1 : ℚ
  trendH2 : ℚ
  rsiH0 : ℚ
  rsiH1 : ℚ
  rsiH2 : ℚ
  exitEmaHandle : ℚ
  exitEmaValue : ℚ
  deriving DecidableEq

/-- What one `OnTick` call produces. -/
structure TickResult where
  prevBar : ℤ
  actions : List Action
  heldReports : ℕ
  erred : Bool
  deriving DecidableEq

/-- All hourly-timeframe fetches succeeded with the samples the handler
indexes (source lines 87-103: trend, RSI, MACD main and signal, ATR). -/
def h1Ok (env : TickEnv) : Bool :=
  env.trendOk && env.rsiOk && env.macdOk && env.atrOk

/-- Long entry condition (source lines 115-116). -/
def longSignal (p : Params) (env : TickEnv) : Bool :=
  decide (env.trend0 > env.trend1) && decide (env.rsi0 > p.rsiLower) &&
    decide (env.rsi1 ≤ p.rsiLower)

/-- Short entry condition (source lines 126-127). -/
def shortSignal (p : Params) (env : TickEnv) : Bool :=
  decide (env.trend0 < env.trend1) && decide (env.rsi0 < p.rsiUpper) &&
    decide (env.rsi1 ≥ p.rsiUpper)

/-- The `trade.Buy` request of source lines 118-121. -/
def longEntryAction (p : Params) (env : TickEnv) : Action :=
  Action.buy p.lotSize env.ask (env.bid - p.stopLoss * env.point)
    (env.ask + p.takeProfit * env.point)

/-- The `trade.Sell` request of source lines 129-132. -/
def shortEntryAction (p : Params) (env : TickEnv) : Action :=
  Action.sell p.lotSize env.bid (env.ask + p.stopLoss * env.point)
    (env.bid - p.takeProfit * env.point)

/-- The entry requests of one qualifying bar (source lines 114-134). -/
def entryActions (p : Params) (env : TickEnv) : List Action :=
  (if longSignal p env then [longEntryAction p env] else []) ++
    (if shortSignal p env then [shortEntryAction p env] else [])

/-- Position holding duration in minutes (source line 160). -/
def posDuration (now openTime : ℤ) : ℤ :=
  (now - openTime) / 60

/-- Management of an open long (source lines 162-193): RSI-reversal exit,
trend-reversal exit — whose comparison value is the raw `iMA` return,
`exitEmaHandle` — and the ATR trailing stop.  Each nested
`if fires then (if guard then close else report held)` of the source is
flattened into one close emitted when `fires ∧ guard` and one held report
counted when `fires ∧ ¬guard`.  Returns the requests in program order and the
number of held-exit reports. -/
def manageLong (p : Params) (q : Position) (env : TickEnv) : List Action × ℕ :=
  let mayExit := posDuration env.now q.openTime ≥ p.minHold
  let rsiFires := env.rsiH0 > p.rsiExit ∧ env.rsiH1 ≤ p.rsiExit
  let trendFires := env.trendH1 > env.exitEmaHandle ∧ env.trendH0 < env.exitEmaHandle
  let newStop := env.bid - p.atrMult * env.atr
  ((if rsiFires ∧ mayExit then [Action.close] else []) ++
      (if trendFires ∧ mayExit then [Action.close] else []) ++
      (if newStop > q.sl then [Action.modify newStop q.tp] else []),
    (if rsiFires ∧ ¬mayExit then 1 else 0) +
      (if trendFires ∧ ¬mayExit then 1 else 0))

/-- Management of an open short (source lines 195-227), mirrored. -/
def manageShort (p : Params) (q : Position) (env : TickEnv) : List Action × ℕ :=
  let mayExit := posDuration env.now q.openTime ≥ p.minHold
  let rsiFires := env.rsiH0 < 100 - p.rsiExit ∧ env.rsiH1 ≥ 100 - p.rsiExit
  let trendFires := env.trendH1 < env.exitEmaHandle ∧ env.trendH0 > env.exitEmaHandle
  let newStop := env.ask + p.atrMult * env.atr
  ((if rsiFires ∧ mayExit then [Action.close] else []) ++
      (if trendFires ∧ mayExit then [Action.close] else []) ++
      (if newStop < q.sl then [Action.modify newStop q.tp] else []),
    (if rsiFires ∧ ¬mayExit then 1 else 0) +
      (if trendFires ∧ ¬mayExit then 1 else 0))

/-- How the broker applies one request: a filled entry replaces the position
(its open time is the current tick's time), close removes it, modify on a live
position updates stop and take-profit, and modify with no position is
rejected. -/
def stepPos (now : ℤ) : Option Position → Action → Option Position
  | _, Action.buy _ _ sl tp => some ⟨PosType.long, now, sl, tp⟩
  | _, Action.sell _ _ sl tp => some ⟨PosType.short, now, sl, tp⟩
  | _, Action.close => none
  | some q, Action.modify sl tp => some ⟨q.posType, q.openTime, sl, tp⟩
  | none, Action.modify _ _ => none

/-- The body of a tick that passed the new-bar check (source lines 114-231):
entries are evaluated (114-134); a filled entry is what `PositionSelect` on
line 137 then sees; with a position selected, the daily fetches (150-151,
indexed on 153-154) must succeed, after which the long or short management
block runs. -/
def newBarResult (p : Params) (pos : Option Position) (env : TickEnv) :
    TickResult :=
  let acts := entryActions p env
  match acts.foldl (stepPos env.now) pos with
  | none => ⟨env.barTime, acts, 0, false⟩
  | some q =>
    if env.higherOk then
      match q.posType with
      | PosType.long =>
        ⟨env.barTime, acts ++ (manageLong p q env).1, (manageLong p q env).2,
          false⟩
      | PosType.short =>
        ⟨env.barTime, acts ++ (manageShort p q env).1, (manageShort p q env).2,
          false⟩
    else ⟨env.barTime, acts, 0, true⟩

/-- The `OnTick` handler (source lines 70-231).  An hourly fetch failure
aborts before the new-bar check (the failed array is indexed on lines 96-103);
on an unchanged bar the handler returns before any entry or exit logic (lines
109-111); otherwise the bar timestamp is recorded and the tick body runs. -/
def OnTick (p : Params) (prevBar : ℤ) (pos : Option Position) (env : TickEnv) :
    TickResult :=
  if h1Ok env then
    if env.barTime = prevBar then ⟨prevBar, [], 0, false⟩
    else newBarResult p pos env
  else ⟨prevBar, [], 0, true⟩

/-- Recogniser for open-long requests. -/
def isBuy : Action → Bool
  | Action.buy _ _ _ _ => true
  | _ => false

/-- Recogniser for open-short requests. -/
def isSell : Action → Bool
  | Action.sell _ _ _ _ => true
  | _ => false

/-- Recogniser for close-position requests. -/
def isClose : Action → Bool
  | Action.close => true
  | _ => false

/-- Recogniser for modify-stop requests. -/
def isModify : Action → Bool
  | Action.modify _ _ => true
  | _ => false

/-- Number of open-long requests in a tick's output. -/
def countBuy (l : List Action) : ℕ := l.countP isBuy

/-- Number of open-short requests in a tick's output. -/
def countSell (l : List Action) : ℕ := l.countP isSell

/-- Number of close-position requests in a tick's output. -/
def countClose (l : List Action) : ℕ := l.countP isClose

/-- Number of modify-stop requests in a tick's output. -/
def countModify (l : List Action) : ℕ := l.countP isModify

/-! ### Concrete inputs used by witnesses and counterexamples -/

/-- The source's default inputs: 0.1 lot, 50/100 point stop/take, RSI
thresholds 60/40, RSI exit level 50, ATR multiplier 3, 60-minute minimum
hold. -/
def defaultParams : Params :=
  ⟨1/10, 50, 100, 60, 40, 50, 3, 60⟩

/-- A quiet tick environment: all fetches succeed, no entry signal, no exit
condition, trailing candidate below the stop.  Bid = ask = 1.2000, point size
0.0001, a fresh bar at timestamp 200, wall clock 100000. -/
def baseEnv : TickEnv where
  bid := 6/5
  ask := 6/5
  point := 1/10000
  barTime := 200
  now := 100000
  trendOk := true
  trend0 := 1
  trend1 := 1
  trend2 := 1
  rsiOk := true
  rsi0 := 50
  rsi1 := 50
  rsi2 := 50
  macdOk := true
  atrOk := true
  atr := 1
  higherOk := true
  trendH0 := 1
  trendH1 := 1
  trendH2 := 1
  rsiH0 := 45
  rsiH1 := 45
  rsiH2 := 45
  exitEmaHandle := 10
  exitEmaValue := 6/5

/-- A long position opened at time 90000 (held 166 minutes at `baseEnv.now`),
stop 1, take-profit 1.25. -/
def defaultPos : Position :=
  ⟨PosType.long, 90000, 1, 5/4⟩

/-- A same-bar tick on which the daily RSI exit condition for a long holds
(49 → 51 through exit level 50). -/
def c7Env : TickEnv :=
  { baseEnv with rsiH0 := 51, rsiH1 := 49 }

/-- A fresh-bar tick with a long entry signal: trend EMA rising (1.1 over
1.0) and RSI crossing 39 → 41 through the lower level 40. -/
def c1Env : TickEnv :=
  { baseEnv with trend0 := 11/10, trend1 := 1, rsi0 := 41, rsi1 := 39 }

/-- A management tick whose ATR is small enough (0.001) that the trailing
candidate 1.2 − 3·0.001 = 1.197 exceeds the long position's stop 1. -/
def c4Env : TickEnv :=
  { baseEnv with atr := 1/1000 }

/-- A fresh-bar tick on which both daily exit conditions for a long hold:
RSI crosses 49 → 51 through exit level 50, and the daily trend samples
straddle the `iMA` handle value 10 (previous 11 above, current 9 below). -/
def c2Env : TickEnv :=
  { baseEnv with rsiH0 := 51, rsiH1 := 49, trendH0 := 9, trendH1 := 11 }

/-- A long position opened 10 seconds before `baseEnv.now`: held 0 minutes,
below the 60-minute minimum. -/
def c5Pos : Position :=
  ⟨PosType.long, 99990, 1, 5/4⟩

/-- A fresh-bar tick with the daily RSI exit condition for a long true
(49 → 51 through 50) and a small ATR (0.001), so the trailing candidate
1.197 exceeds the stop 1. -/
def c5Env : TickEnv :=
  { baseEnv with rsiH0 := 51, rsiH1 := 49, atr := 1/1000 }

/-- A fresh-bar tick on which the spec's trend-reversal exit for a long
fires against the exit EMA's value 1.2 (previous sample 1.25 above, current
1.15 below) while no other exit or entry condition holds. -/
def c3Env : TickEnv :=
  { baseEnv with trendH0 := 23/20, trendH1 := 5/4 }

/-- A tick whose hourly trend `CopyBuffer` fails. -/
def c8aEnv : TickEnv :=
  { baseEnv with trendOk := false }

/-- A tick with a long entry signal whose daily `CopyBuffer` calls fail. -/
def c8bEnv : TickEnv :=
  { c1Env with higherOk := false }

/-! ### Basic lemmas about the handler's control flow -/

/-- An hourly fetch failure aborts the tick before any logic. -/
lemma onTick_of_h1Bad (p : Params) (pb : ℤ) (pos : Option Position)
    (env : TickEnv) (h : h1Ok env = false) :
    OnTick p pb pos env = ⟨pb, [], 0, true⟩ := by
  simp [OnTick, h]

/-- On an unchanged bar (or a failed fetch) the tick requests nothing, leaves
the recorded bar timestamp unchanged and reports nothing. -/
lemma onTick_sameBar (p : Params) (pb : ℤ) (pos : Option Position)
    (env : TickEnv) (h : env.barTime = pb) :
    (OnTick p pb pos env).actions = [] ∧ (OnTick p pb pos env).prevBar = pb ∧
      (OnTick p pb pos env).heldReports = 0 := by
  cases hok : h1Ok env <;> simp [OnTick, hok, h]

/-- On a new bar with hourly data available the handler runs the tick body. -/
lemma onTick_newBar (p : Params) (pb : ℤ) (pos : Option Position)
    (env : TickEnv) (hok : h1Ok env = true) (hbar : ¬env.barTime = pb) :
    OnTick p pb pos env = newBarResult p pos env := by
  simp [OnTick, hok, hbar]

/-- With no entry signal, the entry block requests nothing. -/
lemma entryActions_of_noSignal (p : Params) (env : TickEnv)
    (hl : longSignal p env = false) (hs : shortSignal p env = false) :
    entryActions p env = [] := by
  simp [entryActions, hl, hs]

/-- Tick body with no entry signal and no selected position. -/
lemma newBarResult_noEntry_none (p : Params) (env : TickEnv)
    (hl : longSignal p env = false) (hs : shortSignal p env = false) :
    newBarResult p none env = ⟨env.barTime, [], 0, false⟩ := by
  simp [newBarResult, entryActions_of_noSignal p env hl hs]

/-- Tick body with no entry signal and an open long: only the long
management block's requests are issued. -/
lemma newBarResult_noEntry_long (p : Params) (env : TickEnv) (q : Position)
    (hl : longSignal p env = false) (hs : shortSignal p env = false)
    (hh : env.higherOk = true) (hq : q.posType = PosType.long) :
    newBarResult p (some q) env =
      ⟨env.barTime, (manageLong p q env).1, (manageLong p q env).2, false⟩ := by
  simp [newBarResult, entryActions_of_noSignal p env hl hs, hh, hq]

/-- Tick body with no entry signal and an open short. -/
lemma newBarResult_noEntry_short (p : Params) (env : TickEnv) (q : Position)
    (hl : longSignal p env = false) (hs : shortSignal p env = false)
    (hh : env.higherOk = true) (hq : q.posType = PosType.short) :
    newBarResult p (some q) env =
      ⟨env.barTime, (manageShort p q env).1, (manageShort p q env).2, false⟩ := by
  simp [newBarResult, entryActions_of_noSignal p env hl hs, hh, hq]

/-- Tick body with no entry signal, an open position and a failed daily
fetch: the tick aborts with no request. -/
lemma newBarResult_noEntry_higherBad (p : Params) (env : TickEnv)
    (q : Position) (hl : longSignal p env = false)
    (hs : shortSignal p env = false) (hh : env.higherOk = false) :
    newBarResult p (some q) env = ⟨env.barTime, [], 0, true⟩ := by
  simp [newBarResult, entryActions_of_noSignal p env hl hs, hh]

/-- The long management block never requests an entry. -/
lemma manageLong_no_entry (p : Params) (q : Position) (env : TickEnv) :
    countBuy (manageLong p q env).1 = 0 ∧ countSell (manageLong p q env).1 = 0 := by
  simp only [manageLong, countBuy, countSell]
  split_ifs <;> simp [isBuy, isSell]

/-- The short management block never requests an entry. -/
lemma manageShort_no_entry (p : Params) (q : Position) (env : TickEnv) :
    countBuy (manageShort p q env).1 = 0 ∧ countSell (manageShort p q env).1 = 0 := by
  simp only [manageShort, countBuy, countSell]
  split_ifs <;> simp [isBuy, isSell]

/-- The tick body's requests are the entry requests followed by a tail free
of entries, and the recorded timestamp is the new bar's. -/
lemma newBarResult_shape (p : Params) (pos : Option Position) (env : TickEnv) :
    (newBarResult p pos env).prevBar = env.barTime ∧
      ∃ tail : List Action,
        (newBarResult p pos env).actions = entryActions p env ++ tail ∧
          countBuy tail = 0 ∧ countSell tail = 0 := by
  unfold newBarResult
  rcases hf : (entryActions p env).foldl (stepPos env.now) pos with _ | q
  · exact ⟨by simp [hf], [], by simp [hf], by simp [countBuy], by simp [countSell]⟩
  · rcases q with ⟨pt, ot, sl, tp⟩
    cases hh : env.higherOk
    · exact ⟨by simp [hf, hh], [], by simp [hf, hh], by simp [countBuy],
        by simp [countSell]⟩
    · cases pt
      · exact ⟨by simp [hf, hh], (manageLong p ⟨PosType.long, ot, sl, tp⟩ env).1,
          by simp [hf, hh], (manageLong_no_entry _ _ _).1, (manageLong_no_entry _ _ _).2⟩
      · exact ⟨by simp [hf, hh], (manageShort p ⟨PosType.short, ot, sl, tp⟩ env).1,
          by simp [hf, hh], (manageShort_no_entry _ _ _).1, (manageShort_no_entry _ _ _).2⟩

/-- A long entry signal excludes the short entry signal: the two trend
comparisons are opposite strict inequalities. -/
lemma long_short_exclusive (p : Params) (env : TickEnv)
    (hl : longSignal p env = true) : shortSignal p env = false := by
  have h1 : env.trend1 < env.trend0 := by
    simp only [longSignal, Bool.and_eq_true, decide_eq_true_eq] at hl
    exact hl.1.1
  simp only [shortSignal]
  rw [decide_eq_false (lt_asymm h1)]
  simp

/-- A short entry signal excludes the long entry signal. -/
lemma short_long_exclusive (p : Params) (env : TickEnv)
    (hs : shortSignal p env = true) : longSignal p env = false := by
  have h1 : env.trend0 < env.trend1 := by
    simp only [shortSignal, Bool.and_eq_true, decide_eq_true_eq] at hs
    exact hs.1.1
  simp only [longSignal]
  rw [decide_eq_false (lt_asymm h1)]
  simp

/-- Entry requests contain one open-long exactly when the long signal holds. -/
lemma countBuy_entryActions (p : Params) (env : TickEnv) :
    countBuy (entryActions p env) = if longSignal p env then 1 else 0 := by
  cases hl : longSignal p env <;> cases hs : shortSignal p env <;>
    simp [entryActions, hl, hs, countBuy, longEntryAction, shortEntryAction,
      isBuy]

/-- Entry requests contain one open-short exactly when the short signal
holds. -/
lemma countSell_entryActions (p : Params) (env : TickEnv) :
    countSell (entryActions p env) = if shortSignal p env then 1 else 0 := by
  cases hl : longSignal p env <;> cases hs : shortSignal p env <;>
    simp [entryActions, hl, hs, countSell, longEntryAction, shortEntryAction,
      isSell]

/-- Open-long requests of a full tick come only from the entry block. -/
lemma countBuy_onTick (p : Params) (pb : ℤ) (pos : Option Position)
    (env : TickEnv) :
    countBuy (OnTick p pb pos env).actions = countBuy (entryActions p env) ∨
      countBuy (OnTick p pb pos env).actions = 0 := by
  by_cases hok : h1Ok env = true
  · by_cases hbar : env.barTime = pb
    · right; simp [(onTick_sameBar p pb pos env hbar).1, countBuy]
    · left
      rw [onTick_newBar p pb pos env hok hbar]
      obtain ⟨-, tail, ht, hb, -⟩ := newBarResult_shape p pos env
      unfold countBuy at hb ⊢
      rw [ht, List.countP_append, hb, Nat.add_zero]
  · right
    have h : h1Ok env = false := by revert hok; cases h1Ok env <;> simp
    simp [onTick_of_h1Bad p pb pos env h, countBuy]

/-- Open-short requests of a full tick come only from the entry block. -/
lemma countSell_onTick (p : Params) (pb : ℤ) (pos : Option Position)
    (env : TickEnv) :
    countSell (OnTick p pb pos env).actions = countSell (entryActions p env) ∨
      countSell (OnTick p pb pos env).actions = 0 := by
  by_cases hok : h1Ok env = true
  · by_cases hbar : env.barTime = pb
    · right; simp [(onTick_sameBar p pb pos env hbar).1, countSell]
    · left
      rw [onTick_newBar p pb pos env hok hbar]
      obtain ⟨-, tail, ht, -, hs⟩ := newBarResult_shape p pos env
      unfold countSell at hs ⊢
      rw [ht, List.countP_append, hs, Nat.add_zero]
  · right
    have h : h1Ok env = false := by revert hok; cases h1Ok env <;> simp
    simp [onTick_of_h1Bad p pb pos env h, countSell]

/-! ### C6 — repeated ticks within one bar request no entry -/

/-- C6: on every tick whose current hourly bar open timestamp equals the last
processed bar's timestamp, no open-long and no open-short request is issued,
and the recorded timestamp is unchanged: repeated ticks within one bar are an
idempotent no-op with respect to entries. -/
theorem c6_sameBar_noEntry (p : Params) (pb : ℤ) (pos : Option Position)
    (env : TickEnv) (h : env.barTime = pb) :
    countBuy (OnTick p pb pos env).actions = 0 ∧
      countSell (OnTick p pb pos env).actions = 0 ∧
      (OnTick p pb pos env).prevBar = pb := by
  obtain ⟨ha, hp, -⟩ := onTick_sameBar p pb pos env h
  simp [ha, hp, countBuy, countSell]

/-- C6 witness: a concrete repeated tick of the bar with timestamp 200, with
an open long position and all data available. -/
theorem c6_sameBar_noEntry_witness :
    baseEnv.barTime = (200 : ℤ) ∧
      countBuy (OnTick defaultParams 200 (some defaultPos) baseEnv).actions = 0 ∧
      countSell (OnTick defaultParams 200 (some defaultPos) baseEnv).actions = 0 ∧
      (OnTick defaultParams 200 (some defaultPos) baseEnv).prevBar = 200 :=
  ⟨by with_unfolding_all decide, c6_sameBar_noEntry defaultParams 200 (some defaultPos) baseEnv (by with_unfolding_all decide)⟩

/-! ### C7 — exit/management logic is ALSO gated by the new-bar check

The claim says exit and trailing logic run on every tick even when the bar
timestamp is unchanged.  The source returns from `OnTick` on line 110, before
the position block, whenever the bar is unchanged, so exit and trailing logic
are skipped on such ticks. -/

/-- C7 counterexample: a same-bar tick with an open long position held past
the minimum duration and the daily RSI exit condition true produces no
request and no report at all — the exit/management evaluation did not run,
although the claim says it runs on every tick. -/
theorem c7_counterexample :
    c7Env.barTime = (200 : ℤ) ∧
      (c7Env.rsiH0 > defaultParams.rsiExit ∧ c7Env.rsiH1 ≤ defaultParams.rsiExit) ∧
      posDuration c7Env.now defaultPos.openTime ≥ defaultParams.minHold ∧
      OnTick defaultParams 200 (some defaultPos) c7Env =
        ⟨200, [], 0, false⟩ := by with_unfolding_all decide

/-- C7 (amended): the exit/management evaluation is gated by the same new-bar
check as the entries: on every tick whose bar open timestamp equals the last
processed one, the handler returns before the exit and trailing logic, so no
close request, no modify request and no held-exit report is produced; exit
and trailing logic run at most once per bar. -/
theorem c7_exits_gated (p : Params) (pb : ℤ) (pos : Option Position)
    (env : TickEnv) (h : env.barTime = pb) :
    countClose (OnTick p pb pos env).actions = 0 ∧
      countModify (OnTick p pb pos env).actions = 0 ∧
      (OnTick p pb pos env).heldReports = 0 := by
  obtain ⟨ha, -, hh⟩ := onTick_sameBar p pb pos env h
  simp [ha, hh, countClose, countModify]

/-- C7 witness: the amended statement at the counterexample's same-bar tick. -/
theorem c7_exits_gated_witness :
    c7Env.barTime = (200 : ℤ) ∧
      countClose (OnTick defaultParams 200 (some defaultPos) c7Env).actions = 0 ∧
      countModify (OnTick defaultParams 200 (some defaultPos) c7Env).actions = 0 ∧
      (OnTick defaultParams 200 (some defaultPos) c7Env).heldReports = 0 :=
  ⟨by with_unfolding_all decide, c7_exits_gated defaultParams 200 (some defaultPos) c7Env (by with_unfolding_all decide)⟩

/-! ### C1 — entry placement on a new bar -/

/-- C1: on the tick that starts a new hourly bar with all data available, a
rising trend EMA together with an RSI upward cross of the lower level issues
exactly one open-long request (never two), placed with stop-loss
bid − stopLossPoints·pointSize and take-profit ask + takeProfitPoints·pointSize,
and it is the tick's first request; no later tick of the same bar issues any
entry.  The mirrored short entry places stop-loss ask + stopLossPoints·pointSize
and take-profit bid − takeProfitPoints·pointSize. -/
theorem c1_entry_once (p : Params) (pb : ℤ) (pos : Option Position)
    (env : TickEnv) (hok : h1Ok env = true) (hbar : ¬env.barTime = pb) :
    (longSignal p env = true →
      countBuy (OnTick p pb pos env).actions = 1 ∧
      (OnTick p pb pos env).actions.head? = some (Action.buy p.lotSize env.ask
        (env.bid - p.stopLoss * env.point) (env.ask + p.takeProfit * env.point)) ∧
      ∀ (pos2 : Option Position) (env2 : TickEnv),
        env2.barTime = (OnTick p pb pos env).prevBar →
        countBuy (OnTick p (OnTick p pb pos env).prevBar pos2 env2).actions = 0 ∧
        countSell (OnTick p (OnTick p pb pos env).prevBar pos2 env2).actions = 0) ∧
    (shortSignal p env = true →
      countSell (OnTick p pb pos env).actions = 1 ∧
      (OnTick p pb pos env).actions.head? = some (Action.sell p.lotSize env.bid
        (env.ask + p.stopLoss * env.point) (env.bid - p.takeProfit * env.point))) := by
  rw [onTick_newBar p pb pos env hok hbar]
  obtain ⟨hprev, tail, ht, hb, hs⟩ := newBarResult_shape p pos env
  constructor
  · intro hl
    have hns := long_short_exclusive p env hl
    refine ⟨?_, ?_, ?_⟩
    · unfold countBuy at hb ⊢
      rw [ht, List.countP_append, hb, Nat.add_zero]
      have := countBuy_entryActions p env
      unfold countBuy at this
      rw [this, if_pos hl]
    · rw [ht]
      simp [entryActions, hl, hns, longEntryAction]
    · intro pos2 env2 h2
      obtain ⟨ha2, -, -⟩ := onTick_sameBar p (newBarResult p pos env).prevBar pos2 env2 h2
      simp [ha2, countBuy, countSell]
  · intro hsg
    have hnl := short_long_exclusive p env hsg
    refine ⟨?_, ?_⟩
    · unfold countSell at hs ⊢
      rw [ht, List.countP_append, hs, Nat.add_zero]
      have := countSell_entryActions p env
      unfold countSell at this
      rw [this, if_pos hsg]
    · rw [ht]
      simp [entryActions, hsg, hnl, shortEntryAction]

/-- C1 witness: a fresh bar with a rising trend EMA (1.1 over 1.0) and an RSI
cross 39 → 41 of the lower level 40 at bid = ask = 1.2000 and point size
0.0001: one open-long at stop 1.1950 and take-profit 1.2100, and a repeated
tick of the same bar requests no entry.  The mirrored short request from
ask = 1.2000 carries stop 1.2050. -/
theorem c1_entry_once_witness :
    h1Ok c1Env = true ∧ ¬c1Env.barTime = (0 : ℤ) ∧
      longSignal defaultParams c1Env = true ∧
      countBuy (OnTick defaultParams 0 none c1Env).actions = 1 ∧
      (OnTick defaultParams 0 none c1Env).actions.head? =
        some (Action.buy (1/10) (6/5) (239/200) (121/100)) ∧
      countBuy (OnTick defaultParams (OnTick defaultParams 0 none c1Env).prevBar
        (some defaultPos) c1Env).actions = 0 ∧
      shortEntryAction defaultParams c1Env =
        Action.sell (1/10) (6/5) (241/200) (119/100) :=
  ⟨by with_unfolding_all decide, by with_unfolding_all decide, by with_unfolding_all decide,
    ((c1_entry_once defaultParams 0 none c1Env (by with_unfolding_all decide) (by with_unfolding_all decide)).1
      (by with_unfolding_all decide)).1,
    by with_unfolding_all decide,
    (((c1_entry_once defaultParams 0 none c1Env (by with_unfolding_all decide) (by with_unfolding_all decide)).1
      (by with_unfolding_all decide)).2.2 (some defaultPos) c1Env (by with_unfolding_all decide)).1,
    by with_unfolding_all decide⟩

/-! ### C4 — the ATR trailing stop only ever tightens -/

/-- Every modify request in `l` tightens a long position whose stop is `s`:
its new stop is strictly above `s` and its take-profit is `tpv` unchanged. -/
def tightenLongOnly (s tpv : ℚ) (l : List Action) : Bool :=
  l.all fun a =>
    match a with
    | Action.modify ns nt => decide (s < ns) && decide (nt = tpv)
    | _ => true

/-- Every modify request in `l` tightens a short position whose stop is `s`. -/
def tightenShortOnly (s tpv : ℚ) (l : List Action) : Bool :=
  l.all fun a =>
    match a with
    | Action.modify ns nt => decide (ns < s) && decide (nt = tpv)
    | _ => true

/-- Neither entry signal holds on this tick (the position under management is
not replaced by a fill). -/
def noEntrySignals (p : Params) (env : TickEnv) : Bool :=
  !longSignal p env && !shortSignal p env

/-- One tick of the broker-level transition system: run the handler on the
current broker state, then let the broker apply the requests in order. -/
def applyTick (p : Params) (s : ℤ × Option Position) (env : TickEnv) :
    ℤ × Option Position :=
  ((OnTick p s.1 s.2 env).prevBar,
    (OnTick p s.1 s.2 env).actions.foldl (stepPos env.now) s.2)

/-- A sequence of ticks against the broker. -/
def runTicks (p : Params) (s : ℤ × Option Position) (envs : List TickEnv) :
    ℤ × Option Position :=
  envs.foldl (applyTick p) s

/-- Either closed, or still a long position whose stop has not loosened
below `s`. -/
def stillLongTightened (s : ℚ) : Option Position → Bool
  | none => true
  | some q => decide (q.posType = PosType.long) && decide (s ≤ q.sl)

/-- Either closed, or still a short position whose stop has not loosened
above `s`. -/
def stillShortTightened (s : ℚ) : Option Position → Bool
  | none => true
  | some q => decide (q.posType = PosType.short) && decide (q.sl ≤ s)

/-- The long management block's modify requests strictly raise the stop read
from the position and preserve its take-profit. -/
lemma tightenLongOnly_manageLong (p : Params) (q : Position) (env : TickEnv) :
    tightenLongOnly q.sl q.tp (manageLong p q env).1 = true := by
  simp only [manageLong, tightenLongOnly]
  split_ifs with h1 h2 h3 <;> simp_all

/-- The short management block's modify requests strictly lower the stop read
from the position and preserve its take-profit. -/
lemma tightenShortOnly_manageShort (p : Params) (q : Position) (env : TickEnv) :
    tightenShortOnly q.sl q.tp (manageShort p q env).1 = true := by
  simp only [manageShort, tightenShortOnly]
  split_ifs with h1 h2 h3 <;> simp_all

/-- Applying the long management block's requests leaves the broker closed,
unchanged, or long with a strictly raised stop. -/
lemma foldl_manageLong (now : ℤ) (p : Params) (q : Position) (env : TickEnv)
    (s : ℚ) (hq : q.posType = PosType.long) (hs : s ≤ q.sl) :
    stillLongTightened s
      ((manageLong p q env).1.foldl (stepPos now) (some q)) = true := by
  simp only [manageLong]
  split_ifs with h1 h2 h3 <;>
    simp [stepPos, stillLongTightened, hq, hs] <;> linarith

/-- Applying the short management block's requests leaves the broker closed,
unchanged, or short with a strictly lowered stop. -/
lemma foldl_manageShort (now : ℤ) (p : Params) (q : Position) (env : TickEnv)
    (s : ℚ) (hq : q.posType = PosType.short) (hs : q.sl ≤ s) :
    stillShortTightened s
      ((manageShort p q env).1.foldl (stepPos now) (some q)) = true := by
  simp only [manageShort]
  split_ifs with h1 h2 h3 <;>
    simp [stepPos, stillShortTightened, hq, hs] <;> linarith

/-- With no position selected and no entry signal, the tick requests
nothing. -/
lemma onTick_none_actions (p : Params) (pb : ℤ) (env : TickEnv)
    (hl : longSignal p env = false) (hs : shortSignal p env = false) :
    (OnTick p pb none env).actions = [] := by
  by_cases hok : h1Ok env = true
  · by_cases hbar : env.barTime = pb
    · exact (onTick_sameBar p pb none env hbar).1
    · rw [onTick_newBar p pb none env hok hbar,
        newBarResult_noEntry_none p env hl hs]
  · have h : h1Ok env = false := by revert hok; cases h1Ok env <;> simp
    simp [onTick_of_h1Bad p pb none env h]

/-- One tick with no entry signal preserves "closed, or long with stop not
loosened below `s`". -/
lemma applyTick_stillLong (p : Params) (s : ℚ) (pb : ℤ) (env : TickEnv)
    (hne : noEntrySignals p env = true) (pos : Option Position)
    (hpos : stillLongTightened s pos = true) :
    stillLongTightened s (applyTick p (pb, pos) env).2 = true := by
  have hne' := hne
  simp only [noEntrySignals, Bool.and_eq_true, Bool.not_eq_true'] at hne'
  obtain ⟨hl, hsg⟩ := hne'
  cases pos with
  | none =>
    simp [applyTick, onTick_none_actions p pb env hl hsg, stillLongTightened]
  | some q =>
    have hpos' := hpos
    simp only [stillLongTightened, Bool.and_eq_true, decide_eq_true_eq] at hpos'
    obtain ⟨hq, hsl⟩ := hpos'
    by_cases hok : h1Ok env = true
    · by_cases hbar : env.barTime = pb
      · simpa [applyTick, (onTick_sameBar p pb (some q) env hbar).1] using hpos
      · by_cases hh : env.higherOk = true
        · rw [applyTick]
          rw [onTick_newBar p pb (some q) env hok hbar,
            newBarResult_noEntry_long p env q hl hsg hh hq]
          exact foldl_manageLong env.now p q env s hq hsl
        · have hh' : env.higherOk = false := by
            revert hh; cases env.higherOk <;> simp
          rw [applyTick]
          rw [onTick_newBar p pb (some q) env hok hbar,
            newBarResult_noEntry_higherBad p env q hl hsg hh']
          simpa using hpos
    · have h : h1Ok env = false := by revert hok; cases h1Ok env <;> simp
      simpa [applyTick, onTick_of_h1Bad p pb (some q) env h] using hpos

/-- One tick with no entry signal preserves "closed, or short with stop not
loosened above `s`". -/
lemma applyTick_stillShort (p : Params) (s : ℚ) (pb : ℤ) (env : TickEnv)
    (hne : noEntrySignals p env = true) (pos : Option Position)
    (hpos : stillShortTightened s pos = true) :
    stillShortTightened s (applyTick p (pb, pos) env).2 = true := by
  have hne' := hne
  simp only [noEntrySignals, Bool.and_eq_true, Bool.not_eq_true'] at hne'
  obtain ⟨hl, hsg⟩ := hne'
  cases pos with
  | none =>
    simp [applyTick, onTick_none_actions p pb env hl hsg, stillShortTightened]
  | some q =>
    have hpos' := hpos
    simp only [stillShortTightened, Bool.and_eq_true, decide_eq_true_eq] at hpos'
    obtain ⟨hq, hsl⟩ := hpos'
    by_cases hok : h1Ok env = true
    · by_cases hbar : env.barTime = pb
      · simpa [applyTick, (onTick_sameBar p pb (some q) env hbar).1] using hpos
      · by_cases hh : env.higherOk = true
        · rw [applyTick]
          rw [onTick_newBar p pb (some q) env hok hbar,
            newBarResult_noEntry_short p env q hl hsg hh hq]
          exact foldl_manageShort env.now p q env s hq hsl
        · have hh' : env.higherOk = false := by
            revert hh; cases env.higherOk <;> simp
          rw [applyTick]
          rw [onTick_newBar p pb (some q) env hok hbar,
            newBarResult_noEntry_higherBad p env q hl hsg hh']
          simpa using hpos
    · have h : h1Ok env = false := by revert hok; cases h1Ok env <;> simp
      simpa [applyTick, onTick_of_h1Bad p pb (some q) env h] using hpos

/-- Across any tick sequence without entry signals, "closed, or long with
stop not loosened" is invariant. -/
lemma runTicks_stillLong (p : Params) (s : ℚ) :
    ∀ (envs : List TickEnv), envs.all (noEntrySignals p) = true →
      ∀ (st : ℤ × Option Position), stillLongTightened s st.2 = true →
        stillLongTightened s (runTicks p st envs).2 = true := by
  intro envs
  induction envs with
  | nil => intro _ st h; simpa [runTicks] using h
  | cons e es ih =>
    intro hall st h
    have hall' := hall
    rw [List.all_cons, Bool.and_eq_true] at hall'
    obtain ⟨he, hes⟩ := hall'
    have hstep := applyTick_stillLong p s st.1 e he st.2 h
    have : runTicks p st (e :: es) = runTicks p (applyTick p st e) es := by
      simp [runTicks]
    rw [this]
    exact ih hes (applyTick p st e) hstep

/-- Across any tick sequence without entry signals, "closed, or short with
stop not loosened" is invariant. -/
lemma runTicks_stillShort (p : Params) (s : ℚ) :
    ∀ (envs : List TickEnv), envs.all (noEntrySignals p) = true →
      ∀ (st : ℤ × Option Position), stillShortTightened s st.2 = true →
        stillShortTightened s (runTicks p st envs).2 = true := by
  intro envs
  induction envs with
  | nil => intro _ st h; simpa [runTicks] using h
  | cons e es ih =>
    intro hall st h
    have hall' := hall
    rw [List.all_cons, Bool.and_eq_true] at hall'
    obtain ⟨he, hes⟩ := hall'
    have hstep := applyTick_stillShort p s st.1 e he st.2 h
    have : runTicks p st (e :: es) = runTicks p (applyTick p st e) es := by
      simp [runTicks]
    rw [this]
    exact ih hes (applyTick p st e) hstep

/-- C4: on any tick managing an open position (no entry signal replaces it),
every modify-stop request carries, for a long, a stop strictly above the
position's current stop-loss — the candidate bid − atrMult·ATR is only sent
when it exceeds the current stop — and, for a short, a stop strictly below
it, with the take-profit preserved; consequently, across every sequence of
such ticks applied to the broker, the stop of a position that stays open
never loosens (non-decreasing for a long, non-increasing for a short). -/
theorem c4_trailing_monotone :
    (∀ (p : Params) (pb : ℤ) (env : TickEnv) (q : Position),
      longSignal p env = false → shortSignal p env = false →
      (q.posType = PosType.long →
        tightenLongOnly q.sl q.tp (OnTick p pb (some q) env).actions = true) ∧
      (q.posType = PosType.short →
        tightenShortOnly q.sl q.tp (OnTick p pb (some q) env).actions = true)) ∧
    (∀ (p : Params) (envs : List TickEnv) (pb : ℤ) (q : Position),
      envs.all (noEntrySignals p) = true →
      (q.posType = PosType.long →
        stillLongTightened q.sl (runTicks p (pb, some q) envs).2 = true) ∧
      (q.posType = PosType.short →
        stillShortTightened q.sl (runTicks p (pb, some q) envs).2 = true)) := by
  constructor
  · intro p pb env q hl hsg
    constructor
    · intro hq
      by_cases hok : h1Ok env = true
      · by_cases hbar : env.barTime = pb
        · simp [(onTick_sameBar p pb (some q) env hbar).1, tightenLongOnly]
        · by_cases hh : env.higherOk = true
          · rw [onTick_newBar p pb (some q) env hok hbar,
              newBarResult_noEntry_long p env q hl hsg hh hq]
            exact tightenLongOnly_manageLong p q env
          · have hh' : env.higherOk = false := by
              revert hh; cases env.higherOk <;> simp
            rw [onTick_newBar p pb (some q) env hok hbar,
              newBarResult_noEntry_higherBad p env q hl hsg hh']
            simp [tightenLongOnly]
      · have h : h1Ok env = false := by revert hok; cases h1Ok env <;> simp
        simp [onTick_of_h1Bad p pb (some q) env h, tightenLongOnly]
    · intro hq
      by_cases hok : h1Ok env = true
      · by_cases hbar : env.barTime = pb
        · simp [(onTick_sameBar p pb (some q) env hbar).1, tightenShortOnly]
        · by_cases hh : env.higherOk = true
          · rw [onTick_newBar p pb (some q) env hok hbar,
              newBarResult_noEntry_short p env q hl hsg hh hq]
            exact tightenShortOnly_manageShort p q env
          · have hh' : env.higherOk = false := by
              revert hh; cases env.higherOk <;> simp
            rw [onTick_newBar p pb (some q) env hok hbar,
              newBarResult_noEntry_higherBad p env q hl hsg hh']
            simp [tightenShortOnly]
      · have h : h1Ok env = false := by revert hok; cases h1Ok env <;> simp
        simp [onTick_of_h1Bad p pb (some q) env h, tightenShortOnly]
  · intro p envs pb q hall
    constructor
    · intro hq
      refine runTicks_stillLong p q.sl envs hall (pb, some q) ?_
      simp [stillLongTightened, hq]
    · intro hq
      refine runTicks_stillShort p q.sl envs hall (pb, some q) ?_
      simp [stillShortTightened, hq]

/-- C4 witness: two management ticks on a long position with stop 1 — one
whose trailing candidate 1.197 exceeds the stop (the modify tightens it), one
quiet — never loosen the stop. -/
theorem c4_trailing_monotone_witness :
    longSignal defaultParams c4Env = false ∧
      shortSignal defaultParams c4Env = false ∧
      tightenLongOnly defaultPos.sl defaultPos.tp
        (OnTick defaultParams 0 (some defaultPos) c4Env).actions = true ∧
      [c4Env, baseEnv].all (noEntrySignals defaultParams) = true ∧
      stillLongTightened defaultPos.sl
        (runTicks defaultParams (0, some defaultPos) [c4Env, baseEnv]).2 = true :=
  ⟨by with_unfolding_all decide, by with_unfolding_all decide,
    ((c4_trailing_monotone.1 defaultParams 0 c4Env defaultPos
      (by with_unfolding_all decide) (by with_unfolding_all decide)).1
      (by with_unfolding_all decide)),
    by with_unfolding_all decide,
    ((c4_trailing_monotone.2 defaultParams [c4Env, baseEnv] 0 defaultPos
      (by with_unfolding_all decide)).1 (by with_unfolding_all decide))⟩

/-! ### C2 — the daily RSI reversal exit -/

/-- The long management block's close requests, one per firing exit whose
holding guard passes. -/
lemma countClose_manageLong (p : Params) (q : Position) (env : TickEnv) :
    countClose (manageLong p q env).1 =
      (if (env.rsiH0 > p.rsiExit ∧ env.rsiH1 ≤ p.rsiExit) ∧
          posDuration env.now q.openTime ≥ p.minHold then 1 else 0) +
      (if (env.trendH1 > env.exitEmaHandle ∧ env.trendH0 < env.exitEmaHandle) ∧
          posDuration env.now q.openTime ≥ p.minHold then 1 else 0) := by
  simp only [manageLong, countClose]
  split_ifs <;>
    simp [isClose, List.countP_append, List.countP_cons, List.countP_nil]

/-- The short management block's close requests, one per firing exit whose
holding guard passes. -/
lemma countClose_manageShort (p : Params) (q : Position) (env : TickEnv) :
    countClose (manageShort p q env).1 =
      (if (env.rsiH0 < 100 - p.rsiExit ∧ env.rsiH1 ≥ 100 - p.rsiExit) ∧
          posDuration env.now q.openTime ≥ p.minHold then 1 else 0) +
      (if (env.trendH1 < env.exitEmaHandle ∧ env.trendH0 > env.exitEmaHandle) ∧
          posDuration env.now q.openTime ≥ p.minHold then 1 else 0) := by
  simp only [manageShort, countClose]
  split_ifs <;>
    simp [isClose, List.countP_append, List.countP_cons, List.countP_nil]

/-- C2 counterexample: on a tick where the daily RSI upward crossing fires
for a long held past the minimum duration, the claim's "exactly one
close-position request" fails: the trend-reversal exit also fires on the same
tick and the handler issues two close requests. -/
theorem c2_counterexample :
    (c2Env.rsiH0 > defaultParams.rsiExit ∧ c2Env.rsiH1 ≤ defaultParams.rsiExit) ∧
      posDuration c2Env.now defaultPos.openTime ≥ defaultParams.minHold ∧
      defaultPos.posType = PosType.long ∧
      (OnTick defaultParams 0 (some defaultPos) c2Env).actions =
        [Action.close, Action.close] := by with_unfolding_all decide

/-- C2 (amended): on the first tick of a new hourly bar (exit logic is
skipped on other ticks) with an open long held at least the minimum duration
and no entry signal, a daily RSI upward crossing through the exit level
triggers a close-position request, and it is the only close of the tick
provided the trend-reversal exit does not also fire (each firing exit
contributes its own close request); mirrored for a short with threshold
100 − exitLevel. -/
theorem c2_rsi_exit (p : Params) (pb : ℤ) (env : TickEnv) (q : Position)
    (hok : h1Ok env = true) (hbar : ¬env.barTime = pb)
    (hl : longSignal p env = false) (hs : shortSignal p env = false)
    (hh : env.higherOk = true) :
    (q.posType = PosType.long →
      (env.rsiH0 > p.rsiExit ∧ env.rsiH1 ≤ p.rsiExit) →
      posDuration env.now q.openTime ≥ p.minHold →
      ¬(env.trendH1 > env.exitEmaHandle ∧ env.trendH0 < env.exitEmaHandle) →
      countClose (OnTick p pb (some q) env).actions = 1) ∧
    (q.posType = PosType.short →
      (env.rsiH0 < 100 - p.rsiExit ∧ env.rsiH1 ≥ 100 - p.rsiExit) →
      posDuration env.now q.openTime ≥ p.minHold →
      ¬(env.trendH1 < env.exitEmaHandle ∧ env.trendH0 > env.exitEmaHandle) →
      countClose (OnTick p pb (some q) env).actions = 1) := by
  constructor
  · intro hq hr hd ht
    rw [onTick_newBar p pb (some q) env hok hbar,
      newBarResult_noEntry_long p env q hl hs hh hq]
    show countClose (manageLong p q env).1 = 1
    rw [countClose_manageLong, if_pos ⟨hr, hd⟩, if_neg fun hcon => ht hcon.1]
  · intro hq hr hd ht
    rw [onTick_newBar p pb (some q) env hok hbar,
      newBarResult_noEntry_short p env q hl hs hh hq]
    show countClose (manageShort p q env).1 = 1
    rw [countClose_manageShort, if_pos ⟨hr, hd⟩, if_neg fun hcon => ht hcon.1]

/-- C2 witness: the scenario of the claim — exit level 50, previous daily RSI
49, current 51, long held 166 minutes ≥ 60, trend exit quiet: exactly one
close request. -/
theorem c2_rsi_exit_witness :
    h1Ok c7Env = true ∧ ¬c7Env.barTime = (0 : ℤ) ∧
      (c7Env.rsiH0 > defaultParams.rsiExit ∧ c7Env.rsiH1 ≤ defaultParams.rsiExit) ∧
      posDuration c7Env.now defaultPos.openTime ≥ defaultParams.minHold ∧
      countClose (OnTick defaultParams 0 (some defaultPos) c7Env).actions = 1 :=
  ⟨by with_unfolding_all decide, by with_unfolding_all decide,
    by with_unfolding_all decide, by with_unfolding_all decide,
    (c2_rsi_exit defaultParams 0 c7Env defaultPos (by with_unfolding_all decide)
      (by with_unfolding_all decide) (by with_unfolding_all decide)
      (by with_unfolding_all decide) (by with_unfolding_all decide)).1
      (by with_unfolding_all decide) (by with_unfolding_all decide)
      (by with_unfolding_all decide) (by with_unfolding_all decide)⟩

/-! ### C5 — the minimum holding guard -/

/-- C5 counterexample: an RSI exit fires for a long held 0 minutes (< 60);
the close is withheld and reported as held, but the tick still issues a
trailing-stop modify request — the claim's "zero close and zero modify side
effects" fails on its modify half. -/
theorem c5_counterexample :
    (c5Env.rsiH0 > defaultParams.rsiExit ∧ c5Env.rsiH1 ≤ defaultParams.rsiExit) ∧
      posDuration c5Env.now c5Pos.openTime < defaultParams.minHold ∧
      (OnTick defaultParams 0 (some c5Pos) c5Env).heldReports = 1 ∧
      (OnTick defaultParams 0 (some c5Pos) c5Env).actions =
        [Action.modify (1197/1000) (5/4)] := by with_unfolding_all decide

/-- C5 (amended): on a tick managing an open position with the holding
duration below the minimum, no close request is issued at all (both guarded
exits are withheld), and a firing RSI exit is reported as held; the ATR
trailing-stop modify is not guarded by the holding duration and may still be
issued on the same tick.  The same RSI exit signal with the duration at least
the minimum executes the close. -/
theorem c5_min_hold_guard (p : Params) (pb : ℤ) (env : TickEnv) (q : Position)
    (hok : h1Ok env = true) (hbar : ¬env.barTime = pb)
    (hl : longSignal p env = false) (hs : shortSignal p env = false)
    (hh : env.higherOk = true) :
    (posDuration env.now q.openTime < p.minHold →
      countClose (OnTick p pb (some q) env).actions = 0) ∧
    (q.posType = PosType.long →
      (env.rsiH0 > p.rsiExit ∧ env.rsiH1 ≤ p.rsiExit) →
      (posDuration env.now q.openTime < p.minHold →
        1 ≤ (OnTick p pb (some q) env).heldReports) ∧
      (posDuration env.now q.openTime ≥ p.minHold →
        1 ≤ countClose (OnTick p pb (some q) env).actions)) := by
  constructor
  · intro hd
    have hd' : ¬posDuration env.now q.openTime ≥ p.minHold := not_le.mpr hd
    cases hq : q.posType
    · rw [onTick_newBar p pb (some q) env hok hbar,
        newBarResult_noEntry_long p env q hl hs hh hq]
      show countClose (manageLong p q env).1 = 0
      rw [countClose_manageLong, if_neg fun hcon => hd' hcon.2,
        if_neg fun hcon => hd' hcon.2]
    · rw [onTick_newBar p pb (some q) env hok hbar,
        newBarResult_noEntry_short p env q hl hs hh hq]
      show countClose (manageShort p q env).1 = 0
      rw [countClose_manageShort, if_neg fun hcon => hd' hcon.2,
        if_neg fun hcon => hd' hcon.2]
  · intro hq hr
    constructor
    · intro hd
      have hd' : ¬posDuration env.now q.openTime ≥ p.minHold := not_le.mpr hd
      rw [onTick_newBar p pb (some q) env hok hbar,
        newBarResult_noEntry_long p env q hl hs hh hq]
      show 1 ≤ (manageLong p q env).2
      simp only [manageLong]
      rw [if_pos ⟨hr, hd'⟩]
      exact Nat.le_add_right 1 _
    · intro hd
      rw [onTick_newBar p pb (some q) env hok hbar,
        newBarResult_noEntry_long p env q hl hs hh hq]
      show 1 ≤ countClose (manageLong p q env).1
      rw [countClose_manageLong, if_pos ⟨hr, hd⟩]
      exact Nat.le_add_right 1 _

/-- C5 witness: the held case (0-minute-old long, RSI exit firing: no close,
one held report) and the executed case (166-minute-old long, same signal:
a close request). -/
theorem c5_min_hold_guard_witness :
    posDuration c5Env.now c5Pos.openTime < defaultParams.minHold ∧
      countClose (OnTick defaultParams 0 (some c5Pos) c5Env).actions = 0 ∧
      1 ≤ (OnTick defaultParams 0 (some c5Pos) c5Env).heldReports ∧
      posDuration c5Env.now defaultPos.openTime ≥ defaultParams.minHold ∧
      1 ≤ countClose (OnTick defaultParams 0 (some defaultPos) c5Env).actions :=
  ⟨by with_unfolding_all decide,
    (c5_min_hold_guard defaultParams 0 c5Env c5Pos (by with_unfolding_all decide)
      (by with_unfolding_all decide) (by with_unfolding_all decide)
      (by with_unfolding_all decide) (by with_unfolding_all decide)).1
      (by with_unfolding_all decide),
    ((c5_min_hold_guard defaultParams 0 c5Env c5Pos (by with_unfolding_all decide)
      (by with_unfolding_all decide) (by with_unfolding_all decide)
      (by with_unfolding_all decide) (by with_unfolding_all decide)).2
      (by with_unfolding_all decide) (by with_unfolding_all decide)).1
      (by with_unfolding_all decide),
    by with_unfolding_all decide,
    ((c5_min_hold_guard defaultParams 0 c5Env defaultPos (by with_unfolding_all decide)
      (by with_unfolding_all decide) (by with_unfolding_all decide)
      (by with_unfolding_all decide) (by with_unfolding_all decide)).2
      (by with_unfolding_all decide) (by with_unfolding_all decide)).2
      (by with_unfolding_all decide)⟩

/-! ### C9 — close-position does not short-circuit the tick -/

/-- C9 counterexample: a tick that issues a close-position request for the
open long goes on to issue a trailing-stop modify request later in the same
tick — close does not short-circuit the remaining management. -/
theorem c9_counterexample :
    posDuration c5Env.now defaultPos.openTime ≥ defaultParams.minHold ∧
      (OnTick defaultParams 0 (some defaultPos) c5Env).actions =
        [Action.close, Action.modify (1197/1000) (5/4)] := by
  with_unfolding_all decide

/-- C9 (amended): a close-position request does not short-circuit the tick's
remaining management: after the RSI exit closes a long, the trend-exit check
and the ATR trailing check still run, and when the trailing candidate exceeds
the position's stop the handler issues a modify request after the close in
the same tick. -/
theorem c9_no_short_circuit (p : Params) (pb : ℤ) (env : TickEnv) (q : Position)
    (hok : h1Ok env = true) (hbar : ¬env.barTime = pb)
    (hl : longSignal p env = false) (hs : shortSignal p env = false)
    (hh : env.higherOk = true) (hq : q.posType = PosType.long)
    (hr : env.rsiH0 > p.rsiExit ∧ env.rsiH1 ≤ p.rsiExit)
    (hd : posDuration env.now q.openTime ≥ p.minHold)
    (ht : ¬(env.trendH1 > env.exitEmaHandle ∧ env.trendH0 < env.exitEmaHandle))
    (hc : env.bid - p.atrMult * env.atr > q.sl) :
    (OnTick p pb (some q) env).actions =
      [Action.close, Action.modify (env.bid - p.atrMult * env.atr) q.tp] := by
  rw [onTick_newBar p pb (some q) env hok hbar,
    newBarResult_noEntry_long p env q hl hs hh hq]
  show (manageLong p q env).1 = _
  simp only [manageLong]
  rw [if_pos ⟨hr, hd⟩, if_neg fun hcon => ht hcon.1, if_pos hc]
  rfl

/-- C9 witness: the amended statement at the counterexample's inputs. -/
theorem c9_no_short_circuit_witness :
    (c5Env.rsiH0 > defaultParams.rsiExit ∧ c5Env.rsiH1 ≤ defaultParams.rsiExit) ∧
      c5Env.bid - defaultParams.atrMult * c5Env.atr > defaultPos.sl ∧
      (OnTick defaultParams 0 (some defaultPos) c5Env).actions =
        [Action.close,
          Action.modify (c5Env.bid - defaultParams.atrMult * c5Env.atr)
            defaultPos.tp] :=
  ⟨by with_unfolding_all decide, by with_unfolding_all decide,
    c9_no_short_circuit defaultParams 0 c5Env defaultPos
      (by with_unfolding_all decide) (by with_unfolding_all decide)
      (by with_unfolding_all decide) (by with_unfolding_all decide)
      (by with_unfolding_all decide) (by with_unfolding_all decide)
      (by with_unfolding_all decide) (by with_unfolding_all decide)
      (by with_unfolding_all decide) (by with_unfolding_all decide)⟩

/-! ### C3 — the trend-reversal exit compares samples to an indicator handle,
not to the exit EMA's value

Source lines 176 and 209 read `double trendExitValue = iMA(...)`.  In MQL5,
`iMA` returns an indicator HANDLE — an integer id, exactly as this same file
uses it on lines 42 and 147, where the handle is passed to `CopyBuffer` to
obtain values.  The comparison on lines 177 and 210 therefore tests the daily
EMA samples against a handle id, not against the longer-period EMA's latest
value; the value is never fetched.  The comments ("Modify Trend EMA exit
condition") and the log text ("price crossing below Trend EMA") show the
intended comparison is the one the spec states. -/

/-- Modelled from the spec: the long trend-reversal exit condition — the two
most recent daily trend-EMA samples compared against the single latest VALUE
of the longer-period (trend-exit-period) daily EMA, which the source never
fetches: "previous sample was above this exit-EMA and current sample is below
it". -/
def specTrendExitLong (env : TickEnv) : Prop :=
  env.trendH1 > env.exitEmaValue ∧ env.trendH0 < env.exitEmaValue

instance (env : TickEnv) : Decidable (specTrendExitLong env) := by
  unfold specTrendExitLong
  infer_instance

/-- C3: with daily trend samples 1.25 (previous) and 1.15 (current)
straddling the exit EMA's value 1.20 from above, a long held past the
minimum duration should be closed per the claim, but the handler issues no
request at all: the code compares the samples against the `iMA` handle id 10
(1.25 > 10 is false), not against the EMA value. -/
theorem c3_handle_not_value :
    specTrendExitLong c3Env ∧
      posDuration c3Env.now defaultPos.openTime ≥ defaultParams.minHold ∧
      defaultPos.posType = PosType.long ∧
      ¬c3Env.barTime = (0 : ℤ) ∧ h1Ok c3Env = true ∧ c3Env.higherOk = true ∧
      (OnTick defaultParams 0 (some defaultPos) c3Env).actions = [] := by
  with_unfolding_all decide

/-! ### C8 — fetch failures are fatal and unchecked, not a graceful skip

The source never checks a `CopyBuffer` return value.  A failed or short
hourly fetch is indexed on lines 96-103 — an array-out-of-range critical
error that terminates the tick — and a failed daily fetch is indexed on
lines 153-154 AFTER the entry block has already run, so an entry order can
already have been sent on the very tick the claim says performs no decision
logic. -/

/-- C8: a failed hourly trend fetch aborts the tick with an error (not a
non-fatal no-signal skip), and a failed daily fetch aborts the tick after a
long entry request was already issued. -/
theorem c8_unchecked_fetch :
    c8aEnv.trendOk = false ∧
      (OnTick defaultParams 0 none c8aEnv).erred = true ∧
      (OnTick defaultParams 0 none c8aEnv).actions = [] ∧
      c8bEnv.higherOk = false ∧ longSignal defaultParams c8bEnv = true ∧
      (OnTick defaultParams 0 none c8bEnv).erred = true ∧
      (OnTick defaultParams 0 none c8bEnv).actions =
        [longEntryAction defaultParams c8bEnv] := by
  with_unfolding_all decide

/-! ### C10 — no double entry is possible, but there is no position guard -/

/-- Some tick issues both an open-long and an open-short request — the first
half of the claim. -/
def bothEntriesSameTick : Prop :=
  ∃ (p : Params) (pb : ℤ) (pos : Option Position) (env : TickEnv),
    0 < countBuy (OnTick p pb pos env).actions ∧
      0 < countSell (OnTick p pb pos env).actions

/-- C10 counterexample: no tick input makes the handler issue both an
open-long and an open-short request — the claim's "for some tick input both
... are issued" is false, because the two entry conditions require opposite
strict trend-EMA comparisons. -/
theorem c10_counterexample : ¬bothEntriesSameTick := by
  rintro ⟨p, pb, pos, env, hb, hsl⟩
  rcases countBuy_onTick p pb pos env with h | h
  · rcases countSell_onTick p pb pos env with h' | h'
    · rw [h, countBuy_entryActions] at hb
      rw [h', countSell_entryActions] at hsl
      by_cases hl : longSignal p env = true
      · rw [long_short_exclusive p env hl] at hsl
        simp at hsl
      · have hl' : longSignal p env = false := by
          revert hl; cases longSignal p env <;> simp
        rw [hl'] at hb
        simp at hb
    · rw [h'] at hsl
      simp at hsl
  · rw [h] at hb
    simp at hb

/-- C10 (amended): the two entry conditions are mutually exclusive — on every
tick at least one of the open-long/open-short counts is zero, since the
conditions require opposite strict trend comparisons — but there is no
already-open-position guard: on a qualifying bar a long entry request is
issued even when a position is already open. -/
theorem c10_entry_guards :
    (∀ (p : Params) (pb : ℤ) (pos : Option Position) (env : TickEnv),
      countBuy (OnTick p pb pos env).actions = 0 ∨
        countSell (OnTick p pb pos env).actions = 0) ∧
    (∀ (p : Params) (pb : ℤ) (q : Position) (env : TickEnv),
      h1Ok env = true → ¬env.barTime = pb → longSignal p env = true →
      0 < countBuy (OnTick p pb (some q) env).actions) := by
  constructor
  · intro p pb pos env
    by_cases hl : longSignal p env = true
    · right
      rcases countSell_onTick p pb pos env with h | h
      · rw [h, countSell_entryActions, long_short_exclusive p env hl]
        simp
      · exact h
    · left
      have hl' : longSignal p env = false := by
        revert hl; cases longSignal p env <;> simp
      rcases countBuy_onTick p pb pos env with h | h
      · rw [h, countBuy_entryActions, hl']
        simp
      · exact h
  · intro p pb q env hok hbar hl
    rw [onTick_newBar p pb (some q) env hok hbar]
    obtain ⟨-, tail, ht, hb, -⟩ := newBarResult_shape p (some q) env
    unfold countBuy at hb ⊢
    rw [ht, List.countP_append, hb, Nat.add_zero]
    have hc := countBuy_entryActions p env
    unfold countBuy at hc
    rw [hc, if_pos hl]
    exact Nat.one_pos

/-- C10 witness: the no-guard half at a concrete input — a long entry request
is issued on a qualifying bar although a long position is already open. -/
theorem c10_entry_guards_witness :
    0 < countBuy (OnTick defaultParams 0 (some defaultPos) c1Env).actions :=
  c10_entry_guards.2 defaultParams 0 defaultPos c1Env
    (by with_unfolding_all decide) (by with_unfolding_all decide)
    (by with_unfolding_all decide)

end VEA
